import Mathlib

/-!
Shallow embedding of the nmslib vector Python bindings
(src/python_vect_bindings/nmslib_vector.cc) together with spec-modelled
versions of the pluggable capabilities (space, result queue, index search)
that the bindings call but whose sources are not part of this repository
snapshot.  Definitions mirror the functions of the binding file; theorems
at the end settle the frozen claims about the binding layer.
-/

namespace Nmslib

/-- Vector components.  The bindings store IEEE float32 components verbatim
(readVector / writeVector copy the raw buffer) and never compute with them;
only the modelled space adds, subtracts and multiplies them.  Components are
therefore modelled as exact integers, on which that arithmetic and the
distance order are exact. -/
abbrev Scalar := Int

/-- An nmslib Object as created by readVector and _addDataPointBatch: a
caller-supplied integer identifier together with the vector components. -/
structure Obj where
  oid : Int
  vec : List Scalar
deriving DecidableEq

/-- The kDistFloat constant of the bindings. -/
def kDistFloat : Int := 4

/-- The kDataVector constant of the bindings. -/
def kDataVector : Int := 1

/-- Error kinds raised through the PyException channel, grouped by the
taxonomy of the specification (section 7). -/
inductive Err where
  | parameterError
  | stateError
  | boundsError
  | buildError
  | ioError
deriving DecidableEq

/-- Outcome of a bindings call: a returned value, a raised error, or
undefined behavior (the bindings dereference the raw index_ pointer without
a null check, which is modelled as crash). -/
inductive PyResult (α : Type) where
  | ok (val : α)
  | error (e : Err)
  | crash
deriving DecidableEq

/-- Modelled from the spec: space.h and the space factory are not under
src/.  Section 4.2 gives the Space contract (a configured pure distance
function over two vectors) and the section 8 scenario uses a Euclidean-like
space; modelled as squared Euclidean distance over the components. -/
def sqDist (a b : List Scalar) : Scalar :=
  ((a.zip b).map (fun p => (p.1 - p.2) * (p.1 - p.2))).sum

/-- Modelled from the spec: knnqueue.h is not under src/.  Sections 4.3,
4.4 and 9 describe the result queue as a bounded max-structure keyed by
distance with capacity cap, retaining the cap smallest-distance entries
seen, whose pop order is descending by distance (largest first), with ties
broken by traversal discovery order.  Entries are kept descending by
distance, so the current maximum is the head; among equal distances the
later-discovered entry sits closer to the head, which makes the drained
(ascending) output list earliest-discovered-first on ties. -/
structure KNNQueue where
  cap : Nat
  entries : List (Int × Scalar)
deriving DecidableEq

/-- Insertion into the descending entry list of the modelled queue: the new
entry is placed before the first entry of smaller or equal distance. -/
def insertDesc (e : Int × Scalar) : List (Int × Scalar) → List (Int × Scalar)
  | [] => [e]
  | x :: xs => if x.2 ≤ e.2 then e :: x :: xs else x :: insertDesc e xs

/-- Push one discovered point into the bounded queue; when the queue
exceeds its capacity the current maximum entry (the head) is discarded. -/
def KNNQueue.push (q : KNNQueue) (e : Int × Scalar) : KNNQueue :=
  ⟨q.cap,
    if q.cap < (insertDesc e q.entries).length then (insertDesc e q.entries).tail
    else insertDesc e q.entries⟩

/-- Modelled from the spec: index.h, knnquery.h and the method factory are
not under src/.  Section 4.3: search performs a bounded best-first
traversal producing a result queue holding at most the k closest points
discovered.  Modelled as the traversal that discovers every point of the
build-time snapshot in insertion order and pushes each into the bounded
queue. -/
def searchKnn (snapshot : List Obj) (query : List Scalar) (k : Nat) : KNNQueue :=
  snapshot.foldl (fun q o => q.push (o.oid, sqDist query o.vec)) ⟨k, []⟩

/-- The drain loop shared verbatim by IndexWrapper::KnnQuery and each
KnnQueryBatch worker: while the cloned result queue is nonempty, prepend
the identifier of the top (maximum-distance) object to the output and pop
it.  On the modelled queue the top is the head and pop is tail. -/
def drainIds : List (Int × Scalar) → List Int → List Int
  | [], acc => acc
  | x :: xs, acc => drainIds xs (x.1 :: acc)

/-- The identifier list computed for one query: build a KNNQuery, run
Search through the index, clone the result queue and drain it. -/
def knnIds (snapshot : List Obj) (k : Nat) (query : List Scalar) : List Int :=
  drainIds (searchKnn snapshot query k).entries []

/-- The pluggable Index instance stored in index_.  Modelled from the spec:
the Index class is not under src/; per sections 2 and 4.3 it is built over
a snapshot of the VectorStore taken when the method instance is created by
CreateMethod, and it reaches the Ready state only when the build or the
restore succeeds. -/
structure IndexInst where
  snapshot : List Obj
  built : Bool
deriving DecidableEq

/-- IndexWrapper: the dist/data type tags, the owned data points and the
owned index.  index_ is a raw pointer initialized to nullptr by the
constructor, modelled as none. -/
structure IndexWrapper where
  dist_type_ : Int
  data_type_ : Int
  data_ : List Obj
  index_ : Option IndexInst
deriving DecidableEq

/-- IndexWrapper::GetDataPointQty: the number of stored points. -/
def IndexWrapper.GetDataPointQty (w : IndexWrapper) : Nat := w.data_.length

/-- IndexWrapper::AddDataPoint: unconditionally append the object to
data_. -/
def IndexWrapper.AddDataPoint (w : IndexWrapper) (z : Obj) : IndexWrapper :=
  { w with data_ := w.data_ ++ [z] }

/-- IndexWrapper::CreateIndex: delete the previous index, store a freshly
created method instance in index_ (CreateMethod copies the current data_
as the build snapshot), then run the build on that instance.  The build
itself (Index::CreateIndex) is not under src/; modelled from the spec
(section 4.3: build fails with BuildError) by an explicit outcome flag; a
throwing build propagates its error after index_ has already been
overwritten with the new, not yet built instance. -/
def IndexWrapper.CreateIndex (w : IndexWrapper) (buildOk : Bool) :
    PyResult Unit × IndexWrapper :=
  if buildOk then (.ok (), { w with index_ := some ⟨w.data_, true⟩ })
  else (.error .buildError, { w with index_ := some ⟨w.data_, false⟩ })

/-- IndexWrapper::LoadIndex: same replace-then-restore shape as
CreateIndex; Index::LoadIndex is not under src/ and is modelled from the
spec (section 4.3: restore fails with an I/O error) by an outcome flag. -/
def IndexWrapper.LoadIndex (w : IndexWrapper) (loadOk : Bool) :
    PyResult Unit × IndexWrapper :=
  if loadOk then (.ok (), { w with index_ := some ⟨w.data_, true⟩ })
  else (.error .ioError, { w with index_ := some ⟨w.data_, false⟩ })

/-- IndexWrapper::KnnQuery (lines 292-318): run Search against index_ and
drain the cloned result queue into an identifier list.  index_ is used
without a null check, so a handle on which neither CreateIndex nor
LoadIndex has run dereferences a null pointer: undefined behavior, none. -/
def IndexWrapper.KnnQuery (w : IndexWrapper) (k : Nat) (query : List Scalar) :
    Option (List Int) :=
  match w.index_ with
  | none => none
  | some idx => some (knnIds idx.snapshot k query)

/-- State of one KnnQueryBatch run: the mutex-protected FIFO work queue of
(original position, query) pairs and the pre-sized results vector. -/
structure BatchState where
  workQueue : List (Nat × List Scalar)
  results : List (List Int)
deriving DecidableEq

/-- One iteration of a worker loop in IndexWrapper::KnnQueryBatch: under
the mutex, pop the front work item (exit if the queue is empty), then run
the search outside the lock and write the drained identifier list into the
popped position's slot.  The popped item and the written slot are
determined by the queue alone, so the transition does not depend on which
worker performed it. -/
def batchStep (snapshot : List Obj) (k : Nat) (_wid : Nat) (s : BatchState) :
    BatchState :=
  match s.workQueue with
  | [] => s
  | (i, qv) :: rest => ⟨rest, s.results.set i (knnIds snapshot k qv)⟩

/-- A completed batch run as a linearization of its mutex-serialized pops:
the schedule lists, in order, the worker that performed each pop. -/
def runSched (snapshot : List Obj) (k : Nat) :
    List Nat → BatchState → BatchState
  | [], s => s
  | wid :: rest, s => runSched snapshot k rest (batchStep snapshot k wid s)

/-- Initial batch state built by IndexWrapper::KnnQueryBatch: the work
queue is filled with the enumerated queries and query_res is pre-sized
with one empty result vector per query. -/
def initBatch (queries : List (List Scalar)) : BatchState :=
  ⟨queries.enum, List.replicate queries.length []⟩

/-- IndexWrapper::KnnQueryBatch (lines 320-359): fill the FIFO work queue,
start max(num_threads, 0) workers that each loop popping-and-searching
until the queue is empty, join, and return query_res.  The mutex
serializes the pops, so a completed run is a schedule of batchStep
transitions; with at least one worker the queue is fully drained (a worker
exits only on an empty queue), and with no worker the pre-sized empty
results are returned unchanged.  Workers call Search through the raw
index_ pointer, so a null index_ together with work to do is undefined
behavior. -/
def IndexWrapper.KnnQueryBatch (w : IndexWrapper) (num_threads : Int)
    (k : Nat) (queries : List (List Scalar)) : Option (List (List Int)) :=
  if 1 ≤ num_threads then
    match w.index_ with
    | none => if queries.isEmpty then some (initBatch queries).results else none
    | some idx =>
        some (runSched idx.snapshot k
          (List.replicate (initBatch queries).workQueue.length 0)
          (initBatch queries)).results
  else some (initBatch queries).results

/-- addDataPoint binding (lines 449-464) composed with _addDataPoint
(lines 430-447): dispatch on the dist type tag, look up the reader for the
handle's data type, read the vector (readVector always succeeds on a
well-formed component list) and append it.  Nothing else of the handle is
touched. -/
def addDataPoint (w : IndexWrapper) (id : Int) (vec : List Scalar) :
    PyResult Unit × IndexWrapper :=
  if w.dist_type_ = kDistFloat then
    if w.data_type_ = kDataVector then (.ok (), w.AddDataPoint ⟨id, vec⟩)
    else (.error .parameterError, w)
  else (.error .parameterError, w)

/-- _addDataPointBatch (lines 466-539): after the structural numpy checks
(2-d float32 row-major data, 1-d int32 ids, guaranteed here by the input
types), reject mismatched lengths and otherwise append one Object per row
in row order. -/
def _addDataPointBatch (w : IndexWrapper) (ids : List Int)
    (rows : List (List Scalar)) : PyResult Unit × IndexWrapper :=
  if rows.length ≠ ids.length then (.error .parameterError, w)
  else
    (.ok (),
      { w with data_ := w.data_ ++ (ids.zip rows).map (fun p => ⟨p.1, p.2⟩) })

/-- knnQuery binding (lines 694-713) composed with _knnQuery (lines
677-692): reject k < 1, dispatch on the dist type tag, look up the reader
for the handle's data type, read the query vector and run
IndexWrapper::KnnQuery.  Nothing on this path mutates the handle, so the
wrapper is returned unchanged alongside the result. -/
def knnQuery (w : IndexWrapper) (k : Int) (query : List Scalar) :
    PyResult (List Int) × IndexWrapper :=
  if k < 1 then (.error .parameterError, w)
  else if w.dist_type_ = kDistFloat then
    if w.data_type_ = kDataVector then
      match w.KnnQuery k.toNat query with
      | none => (.crash, w)
      | some ids => (.ok ids, w)
    else (.error .parameterError, w)
  else (.error .parameterError, w)

/-- Matrix row construction of _knnQueryBatch (lines 744-757): the output
array is created zero-filled with k columns, then the positions
j < min(result length, k) of each row are overwritten with the result
identifiers. -/
def fillRow (k : Nat) (ids : List Int) : List Int :=
  (List.range k).map (fun j => ids.getD j 0)

/-- _knnQueryBatch (lines 716-758): run IndexWrapper::KnnQueryBatch over
the query rows and lay the per-query result lists out as a zero-padded
num_vec by k matrix. -/
def _knnQueryBatch (w : IndexWrapper) (num_threads : Int) (k : Nat)
    (queries : List (List Scalar)) : PyResult (List (List Int)) :=
  match w.KnnQueryBatch num_threads k queries with
  | none => .crash
  | some res => .ok (res.map (fillRow k))

/-- knnQueryBatch binding (lines 760-781): reject k < 1, then dispatch on
the dist type tag.  Nothing on this path mutates the handle. -/
def knnQueryBatch (w : IndexWrapper) (num_threads : Int) (k : Int)
    (queries : List (List Scalar)) :
    PyResult (List (List Int)) × IndexWrapper :=
  if k < 1 then (.error .parameterError, w)
  else if w.dist_type_ = kDistFloat then
    (_knnQueryBatch w num_threads k.toNat queries, w)
  else (.error .parameterError, w)

/-- _getDataPoint (lines 783-798): reject positions outside
[0, GetDataPointQty), then write the stored object back as its component
list (writeVector copies the stored buffer verbatim). -/
def _getDataPoint (w : IndexWrapper) (p : Int) : PyResult (List Scalar) :=
  if p < 0 ∨ (w.GetDataPointQty : Int) ≤ p then .error .boundsError
  else if w.data_type_ = kDataVector then
    .ok ((w.data_.getD p.toNat ⟨0, []⟩).vec)
  else .error .parameterError

/-- _getDataPointQty (lines 817-826): return the stored point count. -/
def _getDataPointQty (w : IndexWrapper) : Nat := w.GetDataPointQty

/-- A corpus of two stored points that share identifier 10 and sit at the
same location; identifiers are caller-supplied and not required unique. -/
def dupStore : List Obj := [⟨10, [0, 0]⟩, ⟨10, [0, 0]⟩]

/-- A handle whose index was built over dupStore. -/
def dupWrapper : IndexWrapper :=
  ⟨kDistFloat, kDataVector, dupStore, some ⟨dupStore, true⟩⟩

/-- A handle on which neither CreateIndex nor LoadIndex has ever run:
index_ still holds the nullptr it was constructed with. -/
def unbuiltWrapper : IndexWrapper := ⟨kDistFloat, kDataVector, [⟨1, [0]⟩], none⟩

/-- A freshly initialized handle holding no data points. -/
def emptyWrapper : IndexWrapper := ⟨kDistFloat, kDataVector, [], none⟩

/-- A one-point corpus used to instantiate the universally quantified
claims at a concrete input. -/
def oneStore : List Obj := [⟨5, [0]⟩]

/-- A handle whose index was built over oneStore. -/
def oneWrapper : IndexWrapper :=
  ⟨kDistFloat, kDataVector, oneStore, some ⟨oneStore, true⟩⟩

/-! Helper lemmas about the modelled result queue. -/

theorem insertDesc_length (e : Int × Scalar) (l : List (Int × Scalar)) :
    (insertDesc e l).length = l.length + 1 := by
  induction l with
  | nil => rfl
  | cons x xs ih => by_cases h : x.2 ≤ e.2 <;> simp [insertDesc, h, ih]

theorem mem_insertDesc {e y : Int × Scalar} {l : List (Int × Scalar)}
    (hy : y ∈ insertDesc e l) : y = e ∨ y ∈ l := by
  induction l with
  | nil => simpa [insertDesc] using hy
  | cons x xs ih =>
    by_cases h : x.2 ≤ e.2
    · simpa [insertDesc, h] using hy
    · simp only [insertDesc, if_neg h, List.mem_cons] at hy
      rcases hy with h1 | h2
      · exact Or.inr (by simp [h1])
      · rcases ih h2 with h3 | h4
        · exact Or.inl h3
        · exact Or.inr (List.mem_cons_of_mem x h4)

theorem insertDesc_sorted (e : Int × Scalar) (l : List (Int × Scalar))
    (h : l.Pairwise (fun a b => b.2 ≤ a.2)) :
    (insertDesc e l).Pairwise (fun a b => b.2 ≤ a.2) := by
  induction l with
  | nil => simp [insertDesc]
  | cons x xs ih =>
    rcases List.pairwise_cons.mp h with ⟨hx, hxs⟩
    by_cases hc : x.2 ≤ e.2
    · rw [insertDesc, if_pos hc]
      refine List.pairwise_cons.mpr ⟨?_, h⟩
      intro y hy
      rcases List.mem_cons.mp hy with rfl | hy2
      · exact hc
      · exact le_trans (hx y hy2) hc
    · rw [insertDesc, if_neg hc]
      refine List.pairwise_cons.mpr ⟨?_, ih hxs⟩
      intro y hy
      rcases mem_insertDesc hy with rfl | hy2
      · exact le_of_not_le hc
      · exact hx y hy2

theorem push_cap (q : KNNQueue) (e : Int × Scalar) : (q.push e).cap = q.cap := rfl

theorem push_entries_length (q : KNNQueue) (e : Int × Scalar)
    (h : q.entries.length ≤ q.cap) :
    (q.push e).entries.length = min (q.entries.length + 1) q.cap := by
  rw [KNNQueue.push]
  by_cases hc : q.cap < (insertDesc e q.entries).length
  · rw [if_pos hc]
    simp only [List.length_tail, insertDesc_length]
    rw [insertDesc_length] at hc
    omega
  · rw [if_neg hc, insertDesc_length]
    rw [insertDesc_length] at hc
    omega

theorem push_sorted (q : KNNQueue) (e : Int × Scalar)
    (h : q.entries.Pairwise (fun a b => b.2 ≤ a.2)) :
    (q.push e).entries.Pairwise (fun a b => b.2 ≤ a.2) := by
  rw [KNNQueue.push]
  by_cases hc : q.cap < (insertDesc e q.entries).length
  · rw [if_pos hc]
    exact (insertDesc_sorted e q.entries h).sublist (List.tail_sublist _)
  · rw [if_neg hc]
    exact insertDesc_sorted e q.entries h

theorem foldl_push_inv (query : List Scalar) :
    ∀ (l : List Obj) (q : KNNQueue),
      q.entries.length ≤ q.cap →
      q.entries.Pairwise (fun a b => b.2 ≤ a.2) →
      (l.foldl (fun qq o => qq.push (o.oid, sqDist query o.vec)) q).cap = q.cap
      ∧ (l.foldl (fun qq o => qq.push (o.oid, sqDist query o.vec)) q).entries.length
          = min (q.entries.length + l.length) q.cap
      ∧ (l.foldl (fun qq o => qq.push (o.oid, sqDist query o.vec)) q).entries.Pairwise
          (fun a b => b.2 ≤ a.2) := by
  intro l
  induction l with
  | nil =>
    intro q h1 h2
    refine ⟨rfl, ?_, h2⟩
    simp only [List.foldl_nil, List.length_nil, Nat.add_zero]
    omega
  | cons o rest ih =>
    intro q h1 h2
    simp only [List.foldl_cons]
    have hp2 := push_entries_length q (o.oid, sqDist query o.vec) h1
    have hp3 := push_sorted q (o.oid, sqDist query o.vec) h2
    have hle : (q.push (o.oid, sqDist query o.vec)).entries.length
        ≤ (q.push (o.oid, sqDist query o.vec)).cap := by
      rw [hp2, push_cap]; omega
    obtain ⟨c1, c2, c3⟩ := ih (q.push (o.oid, sqDist query o.vec)) hle hp3
    refine ⟨by rw [c1, push_cap], ?_, c3⟩
    rw [c2, hp2, push_cap]
    simp only [List.length_cons]
    omega

theorem searchKnn_cap (s : List Obj) (qv : List Scalar) (k : Nat) :
    (searchKnn s qv k).cap = k :=
  (foldl_push_inv qv s ⟨k, []⟩ (by simp) (by simp)).1

theorem searchKnn_length (s : List Obj) (qv : List Scalar) (k : Nat) :
    (searchKnn s qv k).entries.length = min s.length k := by
  have := (foldl_push_inv qv s ⟨k, []⟩ (by simp) (by simp)).2.1
  simpa [searchKnn] using this

theorem searchKnn_sorted (s : List Obj) (qv : List Scalar) (k : Nat) :
    (searchKnn s qv k).entries.Pairwise (fun a b => b.2 ≤ a.2) :=
  (foldl_push_inv qv s ⟨k, []⟩ (by simp) (by simp)).2.2

theorem drainIds_eq (l : List (Int × Scalar)) (acc : List Int) :
    drainIds l acc = (l.map Prod.fst).reverse ++ acc := by
  induction l generalizing acc with
  | nil => simp [drainIds]
  | cons x xs ih => simp [drainIds, ih]

theorem knnIds_eq (s : List Obj) (k : Nat) (qv : List Scalar) :
    knnIds s k qv = ((searchKnn s qv k).entries.map Prod.fst).reverse := by
  simp [knnIds, drainIds_eq]

theorem knnIds_length (s : List Obj) (k : Nat) (qv : List Scalar) :
    (knnIds s k qv).length = min s.length k := by
  simp [knnIds_eq, searchKnn_length]

/-! Generic list access lemmas used by the batch and point accessors. -/

theorem getD_map_eq {α β : Type} (f : α → β) (dA : α) (dB : β) :
    ∀ (l : List α) (i : Nat), i < l.length →
      (l.map f).getD i dB = f (l.getD i dA) := by
  intro l
  induction l with
  | nil => intro i h; simp at h
  | cons x xs ih =>
    intro i h
    cases i with
    | zero => rfl
    | succ n => exact ih n (by simpa using h)

theorem getD_replicate_self {α : Type} (a : α) :
    ∀ (n i : Nat), (List.replicate n a).getD i a = a := by
  intro n
  induction n with
  | zero => intro i; rfl
  | succ m ih =>
    intro i
    cases i with
    | zero => rfl
    | succ j => exact ih j

theorem getD_append_left {α : Type} (d : α) :
    ∀ (l l' : List α) (n : Nat), n < l.length →
      (l ++ l').getD n d = l.getD n d := by
  intro l
  induction l with
  | nil => intro _ n h; simp at h
  | cons x xs ih =>
    intro l' n h
    cases n with
    | zero => rfl
    | succ m => exact ih l' m (by simpa using h)

theorem take_set_succ {α : Type} :
    ∀ (res : List α) (off : Nat) (v : α), off < res.length →
      (res.set off v).take (off + 1) = res.take off ++ [v] := by
  intro res
  induction res with
  | nil => intro off v h; simp at h
  | cons x xs ih =>
    intro off v h
    cases off with
    | zero => simp
    | succ m =>
      show x :: (xs.set m v).take (m + 1) = (x :: xs.take m) ++ [v]
      rw [ih m v (by simpa using h)]
      rfl

/-! Lemmas about the batch scheduler: any pop schedule long enough to drain
the work queue produces the slot-indexed per-query results. -/

theorem runSched_drain (snapshot : List Obj) (k : Nat) :
    ∀ (sched : List Nat) (s : BatchState), s.workQueue.length ≤ sched.length →
      (runSched snapshot k sched s).results
        = s.workQueue.foldl (fun r p => r.set p.1 (knnIds snapshot k p.2))
            s.results := by
  intro sched
  induction sched with
  | nil =>
    intro s h
    have hq : s.workQueue = [] := by
      simpa using List.eq_nil_of_length_eq_zero (Nat.le_zero.mp (by simpa using h))
    simp [runSched, hq]
  | cons wid rest ih =>
    intro s h
    rw [runSched]
    cases hq : s.workQueue with
    | nil =>
      have hstep : batchStep snapshot k wid s = s := by simp [batchStep, hq]
      rw [hstep, ih s (by simp [hq]), hq]
    | cons p tl =>
      obtain ⟨i, qv⟩ := p
      have hstep : batchStep snapshot k wid s
          = ⟨tl, s.results.set i (knnIds snapshot k qv)⟩ := by
        simp [batchStep, hq]
      have hlen : tl.length ≤ rest.length := by
        rw [hq] at h
        simp only [List.length_cons] at h
        omega
      rw [hstep, ih ⟨tl, s.results.set i (knnIds snapshot k qv)⟩ hlen]
      rfl

theorem enumFrom_foldl_set {β : Type} (f : β → List Int) :
    ∀ (qs : List β) (off : Nat) (res : List (List Int)),
      off + qs.length = res.length →
      (List.enumFrom off qs).foldl (fun r p => r.set p.1 (f p.2)) res
        = res.take off ++ qs.map f := by
  intro qs
  induction qs with
  | nil =>
    intro off res h
    simp only [List.length_nil, Nat.add_zero] at h
    simp only [List.enumFrom, List.foldl_nil, List.map_nil, List.append_nil]
    exact (List.take_of_length_le (by omega)).symm
  | cons q qs ih =>
    intro off res h
    simp only [List.enumFrom, List.foldl_cons]
    rw [ih (off + 1) (res.set off (f q))
        (by simp only [List.length_set]; simp only [List.length_cons] at h; omega)]
    rw [take_set_succ res off (f q)
        (by simp only [List.length_cons] at h; omega)]
    simp

theorem batch_results_eq (snapshot : List Obj) (k : Nat)
    (queries : List (List Scalar)) (sched : List Nat)
    (hs : queries.length ≤ sched.length) :
    (runSched snapshot k sched (initBatch queries)).results
      = queries.map (knnIds snapshot k) := by
  rw [runSched_drain snapshot k sched (initBatch queries)
      (by simpa [initBatch] using hs)]
  show (List.enumFrom 0 queries).foldl _ (List.replicate queries.length []) = _
  rw [enumFrom_foldl_set (knnIds snapshot k) queries 0
      (List.replicate queries.length []) (by simp)]
  simp

/-! Lemmas about the zero-padded output rows. -/

theorem fillRow_length (k : Nat) (ids : List Int) : (fillRow k ids).length = k := by
  simp [fillRow]

theorem fillRow_nil (k : Nat) : fillRow k [] = List.replicate k 0 := by
  have h : ∀ l : List Nat, l.map (fun j => ([] : List Int).getD j 0)
      = List.replicate l.length 0 := by
    intro l
    induction l with
    | nil => rfl
    | cons a t ih =>
      show (0 : Int) :: t.map _ = _
      rw [ih]
      rfl
  rw [fillRow, h, List.length_range]

theorem fillRow_eq : ∀ (ids : List Int) (k : Nat), ids.length ≤ k →
    fillRow k ids = ids ++ List.replicate (k - ids.length) 0 := by
  intro ids
  induction ids with
  | nil => intro k h; simpa using fillRow_nil k
  | cons x t ih =>
    intro k h
    cases k with
    | zero => simp at h
    | succ m =>
      have step : fillRow (m + 1) (x :: t) = x :: fillRow m t := by
        rw [fillRow, List.range_succ_eq_map, List.map_cons, List.map_map]
        rfl
      rw [step, ih m (by simpa using h)]
      simp only [List.cons_append, List.length_cons, Nat.succ_sub_succ]

/-! Claim theorems. -/

/-- C1: for every built index, every k ≥ 1, every query batch and every
worker count W in [1, Q], KnnQueryBatch returns a Q-length sequence whose
entry at position i equals the identifier list KnnQuery returns for
queries[i] against the same index.  The result is moreover the outcome of
every pop schedule that drains the shared work queue, hence independent of
W and of the order in which workers complete queries. -/
theorem knn_query_batch_refinement (w : IndexWrapper) (idx : IndexInst)
    (hb : w.index_ = some idx) (k : Nat) (hk : 1 ≤ k)
    (queries : List (List Scalar)) (W : Int) (hW1 : 1 ≤ W)
    (hWQ : W ≤ (queries.length : Int)) (sched : List Nat)
    (hsched : queries.length ≤ sched.length) :
    ∃ res, w.KnnQueryBatch W k queries = some res
      ∧ res.length = queries.length
      ∧ (runSched idx.snapshot k sched (initBatch queries)).results = res
      ∧ ∀ i, i < queries.length →
          w.KnnQuery k (queries.getD i []) = some (res.getD i []) := by
  refine ⟨queries.map (knnIds idx.snapshot k), ?_, by simp, ?_, ?_⟩
  · simp only [IndexWrapper.KnnQueryBatch, hb, if_pos hW1]
    rw [batch_results_eq idx.snapshot k queries _ (by simp [initBatch])]
  · exact batch_results_eq idx.snapshot k queries sched hsched
  · intro i hi
    simp only [IndexWrapper.KnnQuery, hb]
    rw [getD_map_eq (knnIds idx.snapshot k) [] [] queries i hi]

/-- Witness for C1: the one-point index, a single query, one worker and
the single-pop schedule. -/
theorem knn_query_batch_refinement_witness :
    ∃ res, oneWrapper.KnnQueryBatch 1 1 [[0]] = some res
      ∧ res.length = ([[0]] : List (List Scalar)).length
      ∧ (runSched (IndexInst.mk oneStore true).snapshot 1 [0]
          (initBatch [[0]])).results = res
      ∧ ∀ i, i < ([[0]] : List (List Scalar)).length →
          oneWrapper.KnnQuery 1 (([[0]] : List (List Scalar)).getD i [])
            = some (res.getD i []) :=
  knn_query_batch_refinement oneWrapper ⟨oneStore, true⟩ rfl 1 (by decide)
    [[0]] 1 (by decide) (by decide) [0] (by decide)

/-- C2 (amended): for every built index and every k ≥ 1, KnnQuery returns
the drained result queue as an identifier list of length
min(candidates, k) ≤ k, ordered ascending by the computed distance with
ties broken by discovery order (so the order is non-decreasing rather than
strictly increasing, and identifiers may repeat when stored points share an
identifier); with fewer than k candidates the list is shorter than k and
never padded. -/
theorem knn_query_result_ordered (w : IndexWrapper) (idx : IndexInst)
    (hb : w.index_ = some idx) (k : Nat) (hk : 1 ≤ k) (qv : List Scalar) :
    ∃ pairs : List (Int × Scalar),
      w.KnnQuery k qv = some (pairs.map Prod.fst)
      ∧ pairs.length ≤ k
      ∧ pairs.length = min idx.snapshot.length k
      ∧ (pairs.map Prod.snd).Pairwise (fun a b => a ≤ b) := by
  refine ⟨(searchKnn idx.snapshot qv k).entries.reverse, ?_, ?_, ?_, ?_⟩
  · simp only [IndexWrapper.KnnQuery, hb]
    rw [knnIds_eq, List.map_reverse]
  · simp [searchKnn_length]
  · simp [searchKnn_length]
  · rw [List.pairwise_map, List.pairwise_reverse]
    exact searchKnn_sorted idx.snapshot qv k

/-- Witness for C2 (amended) at the one-point index with k = 1. -/
theorem knn_query_result_ordered_witness :
    ∃ pairs : List (Int × Scalar),
      oneWrapper.KnnQuery 1 [0] = some (pairs.map Prod.fst)
      ∧ pairs.length ≤ 1
      ∧ pairs.length = min (IndexInst.mk oneStore true).snapshot.length 1
      ∧ (pairs.map Prod.snd).Pairwise (fun a b => a ≤ b) :=
  knn_query_result_ordered oneWrapper ⟨oneStore, true⟩ rfl 1 (by decide) [0]

/-- C2 counterexample: over a built index holding two points that share
identifier 10 at the same location, KnnQuery with k = 2 returns [10, 10]:
the returned identifiers are not duplicate-free and the drained distances
(0 and 0) are not strictly ascending, refuting the claim as stated. -/
theorem knn_query_strictness_cex :
    dupWrapper.KnnQuery 2 [0, 0] = some [10, 10]
    ∧ ¬ ([10, 10] : List Int).Nodup
    ∧ ¬ ((searchKnn dupStore [0, 0] 2).entries.reverse.map Prod.snd).Pairwise
        (fun a b => a < b) :=
  ⟨by decide, by decide, by decide⟩

/-- C3: on a handle on which neither CreateIndex nor LoadIndex has ever
run, index_ is still the null pointer of the constructor, and knnQuery and
knnQueryBatch run Search through it without any readiness check: the call
is undefined behavior (modelled as crash), not the StateError the
specification prescribes. -/
theorem knn_query_before_build_crashes :
    (knnQuery unbuiltWrapper 1 [0]).1 = PyResult.crash
    ∧ (knnQueryBatch unbuiltWrapper 1 1 [[0]]).1 = PyResult.crash
    ∧ (knnQuery unbuiltWrapper 1 [0]).1 ≠ PyResult.error Err.stateError
    ∧ (knnQueryBatch unbuiltWrapper 1 1 [[0]]).1 ≠ PyResult.error Err.stateError :=
  ⟨by decide, by decide, by decide, by decide⟩

/-- C4 counterexample: on a concrete handle a failing CreateIndex raises
BuildError and yet leaves index_ holding the freshly created, not yet
built method instance over the current data: the index reference was
transferred although the build failed, so partially built state stays
reachable by subsequent calls. -/
theorem create_index_failure_cex :
    (unbuiltWrapper.CreateIndex false).1 = PyResult.error Err.buildError
    ∧ (unbuiltWrapper.CreateIndex false).2.index_
        = some ⟨unbuiltWrapper.data_, false⟩
    ∧ (unbuiltWrapper.CreateIndex false).2.index_ ≠ none :=
  ⟨by decide, by decide, by decide⟩

/-- C4 (amended): a failed CreateIndex or LoadIndex propagates its error
only after the previous index has been deleted and index_ has been
overwritten with the new, not yet built instance over the current data:
the index reference is transferred unconditionally before the build or
load runs, and the partially built instance remains reachable
afterwards. -/
theorem create_index_failure_keeps_new_instance (w : IndexWrapper) :
    (w.CreateIndex false).1 = PyResult.error Err.buildError
    ∧ (w.CreateIndex false).2.index_ = some ⟨w.data_, false⟩
    ∧ (w.LoadIndex false).1 = PyResult.error Err.ioError
    ∧ (w.LoadIndex false).2.index_ = some ⟨w.data_, false⟩ :=
  ⟨rfl, rfl, rfl, rfl⟩

/-- C5: for every built index, every k ≥ 1 and every batch of num_vec
query rows, _knnQueryBatch returns a matrix of exactly num_vec rows of k
entries each; row i starts with the i-th per-query result list (whose
length is at most k) and is padded to width k with the zero sentinel, and
a short result list is not treated as an error. -/
theorem knn_query_batch_fixed_width (w : IndexWrapper) (idx : IndexInst)
    (hb : w.index_ = some idx) (nt : Int) (k : Nat) (hk : 1 ≤ k)
    (queries : List (List Scalar)) :
    ∃ res mat, w.KnnQueryBatch nt k queries = some res
      ∧ _knnQueryBatch w nt k queries = PyResult.ok mat
      ∧ mat.length = queries.length
      ∧ ∀ i, i < queries.length →
          (mat.getD i []).length = k
          ∧ (res.getD i []).length ≤ k
          ∧ mat.getD i []
              = res.getD i [] ++ List.replicate (k - (res.getD i []).length) 0 := by
  have key : ∃ res, w.KnnQueryBatch nt k queries = some res
      ∧ res.length = queries.length
      ∧ ∀ i, i < queries.length → (res.getD i []).length ≤ k := by
    by_cases hnt : 1 ≤ nt
    · refine ⟨queries.map (knnIds idx.snapshot k), ?_, by simp, ?_⟩
      · simp only [IndexWrapper.KnnQueryBatch, hb, if_pos hnt]
        rw [batch_results_eq idx.snapshot k queries _ (by simp [initBatch])]
      · intro i hi
        rw [getD_map_eq (knnIds idx.snapshot k) [] [] queries i hi,
          knnIds_length]
        omega
    · refine ⟨List.replicate queries.length [], ?_, by simp, ?_⟩
      · rw [IndexWrapper.KnnQueryBatch, if_neg hnt]
        rfl
      · intro i hi
        rw [getD_replicate_self]
        simp
  obtain ⟨res, hres, hlen, hbound⟩ := key
  refine ⟨res, res.map (fillRow k), hres, ?_, by simp [hlen], ?_⟩
  · simp only [_knnQueryBatch, hres]
  · intro i hi
    have hi2 : i < res.length := by omega
    have h1 : (res.map (fillRow k)).getD i [] = fillRow k (res.getD i []) :=
      getD_map_eq (fillRow k) [] [] res i hi2
    exact ⟨by rw [h1, fillRow_length], hbound i hi,
      by rw [h1, fillRow_eq (res.getD i []) k (hbound i hi)]⟩

/-- Witness for C5 at the one-point index with one worker, k = 1 and a
single query. -/
theorem knn_query_batch_fixed_width_witness :
    ∃ res mat, oneWrapper.KnnQueryBatch 1 1 [[0]] = some res
      ∧ _knnQueryBatch oneWrapper 1 1 [[0]] = PyResult.ok mat
      ∧ mat.length = ([[0]] : List (List Scalar)).length
      ∧ ∀ i, i < ([[0]] : List (List Scalar)).length →
          (mat.getD i []).length = 1
          ∧ (res.getD i []).length ≤ 1
          ∧ mat.getD i []
              = res.getD i [] ++ List.replicate (1 - (res.getD i []).length) 0 :=
  knn_query_batch_fixed_width oneWrapper ⟨oneStore, true⟩ rfl 1 1 (by decide)
    [[0]]

/-- C6: with k < 1 both knnQuery and knnQueryBatch raise a ParameterError
immediately; the handle — including its index reference — is returned
unchanged, and the check precedes every access to the index (the result is
the same even on a handle whose index pointer is null). -/
theorem knn_query_k_validation (w : IndexWrapper) (k : Int) (hk : k < 1)
    (q : List Scalar) (nt : Int) (queries : List (List Scalar)) :
    knnQuery w k q = (PyResult.error Err.parameterError, w)
    ∧ knnQueryBatch w nt k queries = (PyResult.error Err.parameterError, w) := by
  constructor
  · rw [knnQuery, if_pos hk]
  · rw [knnQueryBatch, if_pos hk]

/-- Witness for C6: k = 0 on the unbuilt handle (whose null index is never
touched). -/
theorem knn_query_k_validation_witness :
    knnQuery unbuiltWrapper 0 [0] = (PyResult.error Err.parameterError, unbuiltWrapper)
    ∧ knnQueryBatch unbuiltWrapper 1 0 [[0]]
        = (PyResult.error Err.parameterError, unbuiltWrapper) :=
  knn_query_k_validation unbuiltWrapper 0 (by decide) [0] 1 [[0]]

/-- C7: _getDataPoint fails with a BoundsError exactly when the position is
negative or at least the stored point count, and returns a vector for
every position in range. -/
theorem get_data_point_bounds (w : IndexWrapper)
    (hdt : w.data_type_ = kDataVector) (p : Int) :
    (_getDataPoint w p = PyResult.error Err.boundsError
      ↔ (p < 0 ∨ (w.GetDataPointQty : Int) ≤ p))
    ∧ (0 ≤ p → p < (w.GetDataPointQty : Int) →
        ∃ v, _getDataPoint w p = PyResult.ok v) := by
  by_cases hc : p < 0 ∨ (w.GetDataPointQty : Int) ≤ p
  · constructor
    · exact ⟨fun _ => hc, fun _ => by rw [_getDataPoint, if_pos hc]⟩
    · intro h1 h2
      rcases hc with h3 | h3
      · exact absurd h3 (by omega)
      · exact absurd h3 (by omega)
  · have hres : _getDataPoint w p
        = PyResult.ok ((w.data_.getD p.toNat ⟨0, []⟩).vec) := by
      rw [_getDataPoint, if_neg hc, if_pos hdt]
    constructor
    · rw [hres]
      simp [hc]
    · intro _ _
      exact ⟨_, hres⟩

/-- Witness for C7 at the one-point handle and position 0. -/
theorem get_data_point_bounds_witness :
    (_getDataPoint oneWrapper 0 = PyResult.error Err.boundsError
      ↔ ((0 : Int) < 0 ∨ (oneWrapper.GetDataPointQty : Int) ≤ 0))
    ∧ ((0 : Int) ≤ 0 → (0 : Int) < (oneWrapper.GetDataPointQty : Int) →
        ∃ v, _getDataPoint oneWrapper 0 = PyResult.ok v) :=
  get_data_point_bounds oneWrapper rfl 0

/-- C8: the concrete add_points_batch scenario: ids [1, 2] with rows
[[1,2,3],[4,5,6]] on a fresh handle succeed, the point count becomes 2,
and positions 0 and 1 read back exactly the inserted rows. -/
theorem add_points_batch_roundtrip :
    (_addDataPointBatch emptyWrapper [1, 2] [[1, 2, 3], [4, 5, 6]]).1
        = PyResult.ok ()
    ∧ _getDataPointQty
        (_addDataPointBatch emptyWrapper [1, 2] [[1, 2, 3], [4, 5, 6]]).2 = 2
    ∧ _getDataPoint
        (_addDataPointBatch emptyWrapper [1, 2] [[1, 2, 3], [4, 5, 6]]).2 0
        = PyResult.ok [1, 2, 3]
    ∧ _getDataPoint
        (_addDataPointBatch emptyWrapper [1, 2] [[1, 2, 3], [4, 5, 6]]).2 1
        = PyResult.ok [4, 5, 6] :=
  ⟨by decide, by decide, by decide, by decide⟩

/-- C9: with num_threads ≤ 0 the worker-spawning loop runs zero times, so
no worker starts, no query is executed and the call does not fail:
_knnQueryBatch returns the zero-filled num_vec by k matrix. -/
theorem knn_query_batch_nonpositive_threads (w : IndexWrapper)
    (idx : IndexInst) (hb : w.index_ = some idx) (nt : Int) (hnt : nt ≤ 0)
    (k : Nat) (hk : 1 ≤ k) (queries : List (List Scalar))
    (hne : queries ≠ []) :
    _knnQueryBatch w nt k queries
      = PyResult.ok (List.replicate queries.length (List.replicate k 0)) := by
  have h1 : w.KnnQueryBatch nt k queries
      = some (List.replicate queries.length []) := by
    rw [IndexWrapper.KnnQueryBatch, if_neg (by omega)]
    rfl
  simp only [_knnQueryBatch, h1]
  rw [List.map_replicate, fillRow_nil]

/-- Witness for C9: zero threads on the built one-point index. -/
theorem knn_query_batch_nonpositive_threads_witness :
    _knnQueryBatch oneWrapper 0 1 [[0]]
      = PyResult.ok (List.replicate ([[0]] : List (List Scalar)).length
          (List.replicate 1 0)) :=
  knn_query_batch_nonpositive_threads oneWrapper ⟨oneStore, true⟩ rfl 0
    (by decide) 1 (by decide) [[0]] (by decide)

/-- C10: addDataPoint appends unconditionally in every lifecycle state of
the handle: it succeeds for every well-formed vector, leaves the index
reference exactly as it was, increments the point count by one and leaves
every previously stored point readable unchanged. -/
theorem add_point_append_frame (w : IndexWrapper)
    (hd : w.dist_type_ = kDistFloat) (hdt : w.data_type_ = kDataVector)
    (i : Int) (vec : List Scalar) :
    (addDataPoint w i vec).1 = PyResult.ok ()
    ∧ _getDataPointQty (addDataPoint w i vec).2 = _getDataPointQty w + 1
    ∧ (addDataPoint w i vec).2.index_ = w.index_
    ∧ ∀ p : Int, 0 ≤ p → p < (w.GetDataPointQty : Int) →
        _getDataPoint (addDataPoint w i vec).2 p = _getDataPoint w p := by
  have hw : addDataPoint w i vec
      = (PyResult.ok (), { w with data_ := w.data_ ++ [⟨i, vec⟩] }) := by
    rw [addDataPoint, if_pos hd, if_pos hdt]
    rfl
  refine ⟨by rw [hw], ?_, by rw [hw], ?_⟩
  · rw [hw]
    simp [_getDataPointQty, IndexWrapper.GetDataPointQty]
  · intro p hp0 hp1
    simp only [IndexWrapper.GetDataPointQty] at hp1
    have hpn : p.toNat < w.data_.length := by omega
    have hpI := Int.toNat_of_nonneg hp0
    rw [hw]
    have hcond : ¬(p < 0
        ∨ ((({ w with data_ := w.data_ ++ [⟨i, vec⟩] } : IndexWrapper).GetDataPointQty : Nat) : Int) ≤ p) := by
      simp only [IndexWrapper.GetDataPointQty, List.length_append,
        List.length_cons, List.length_nil]
      omega
    have hcond2 : ¬(p < 0 ∨ ((w.GetDataPointQty : Nat) : Int) ≤ p) := by
      simp only [IndexWrapper.GetDataPointQty]
      omega
    rw [_getDataPoint, if_neg hcond, if_pos hdt, _getDataPoint, if_neg hcond2,
      if_pos hdt]
    rw [getD_append_left ⟨0, []⟩ w.data_ [⟨i, vec⟩] p.toNat hpn]

/-- Witness for C10: appending to the built one-point handle. -/
theorem add_point_append_frame_witness :
    (addDataPoint oneWrapper 7 [1]).1 = PyResult.ok ()
    ∧ _getDataPointQty (addDataPoint oneWrapper 7 [1]).2
        = _getDataPointQty oneWrapper + 1
    ∧ (addDataPoint oneWrapper 7 [1]).2.index_ = oneWrapper.index_
    ∧ ∀ p : Int, 0 ≤ p → p < (oneWrapper.GetDataPointQty : Int) →
        _getDataPoint (addDataPoint oneWrapper 7 [1]).2 p
          = _getDataPoint oneWrapper p :=
  add_point_append_frame oneWrapper rfl rfl 7 [1]

end Nmslib
